import Mathlib

/-!
Shallow embedding of `src/src/main.rs` from
`brannondorsey/rust-incompatible-transitive-dependencies`.

The program is:

  use a::log as log_a;
  use b::log as log_b;
  use simple_logger::SimpleLogger;

  fn main() {
      SimpleLogger::new()
          .init()
          .expect("Failed to initialize logger");
      log_a();
      log_b();
  }

The process-wide mutable state is the global logging sink plus the captured
output stream; we thread it explicitly through every effectful operation.
`main` is embedded as a function from the initial process state to a run
result recording the exit status, the trace of effectful operations
performed, and the final process state.
-/

/-- Log levels of the `log` crate facade, relevant only to the optional
minimum-level filter of the logger configuration. -/
inductive Level where
  | error
  | warn
  | info
  | debug
  | trace
deriving DecidableEq, Repr

/-- Modelled from the spec: the configuration of the external
`simple_logger::SimpleLogger` backend, which is not part of `src/`.  The spec
describes exactly two configuration dimensions for this program: an optional
minimum level filter and whether default formatting is used. -/
structure SimpleLogger where
  minLevelFilter : Option Level
  defaultFormatting : Bool
deriving DecidableEq, Repr

/-- Modelled from the spec: `SimpleLogger::new()` takes no inputs and yields
the default configuration — no minimum level filter specified, default
formatting. -/
def SimpleLogger.new : SimpleLogger :=
  { minLevelFilter := none, defaultFormatting := true }

/-- The single error kind of the sink-installation step. -/
inductive InitError where
  | loggerAlreadyInitialized
deriving DecidableEq, Repr

/-- The process-wide state: the global logging sink (`none` while no sink has
been installed) and the captured stream of emitted log records. -/
structure ProcState where
  sink : Option SimpleLogger
  output : List String
deriving DecidableEq, Repr

/-- A fresh process: no sink installed, no output emitted yet. -/
def freshProcess : ProcState :=
  { sink := none, output := [] }

/-- Modelled from the spec: `SimpleLogger::init` (the `log` crate's global
installation step, not part of `src/`).  It fails with the
`AlreadyInitialized` kind when a sink was previously installed in this
process; otherwise it installs `cfg` as the process-wide sink. -/
def SimpleLogger.init (cfg : SimpleLogger) (s : ProcState) :
    Except InitError ProcState :=
  match s.sink with
  | some _ => .error .loggerAlreadyInitialized
  | none => .ok { s with sink := some cfg }

namespace a

/-- Modelled from the spec: the reporting function `log` of the external
crate `a` (not part of `src/`), which takes no input, returns no value, and
emits one log record — the record labelled "A" in the spec's scenario. -/
def log (s : ProcState) : ProcState :=
  { s with output := s.output ++ ["A"] }

end a

namespace b

/-- Modelled from the spec: the reporting function `log` of the external
crate `b` (not part of `src/`), which takes no input, returns no value, and
emits one log record — the record labelled "B" in the spec's scenario. -/
def log (s : ProcState) : ProcState :=
  { s with output := s.output ++ ["B"] }

end b

/-- `use a::log as log_a;` — the aliased import of crate `a`'s reporting
function. -/
def log_a : ProcState → ProcState := a.log

/-- `use b::log as log_b;` — the aliased import of crate `b`'s reporting
function. -/
def log_b : ProcState → ProcState := b.log

/-- The effectful operations `main` can perform, in the order they appear in
the recorded trace. -/
inductive Event where
  | initSink
  | callA
  | callB
deriving DecidableEq, Repr

/-- How the process terminates: normal completion, or a Rust panic carrying
its diagnostic message. -/
inductive ExitStatus where
  | success
  | panicked (msg : String)
deriving DecidableEq, Repr

/-- The numeric process exit code: 0 on normal completion, the standard
non-zero Rust panic exit code (101) on panic. -/
def exitCode : ExitStatus → Nat
  | .success => 0
  | .panicked _ => 101

/-- The `Debug` rendering of the initialization error, as interpolated into
the panic message by `Result::expect`. -/
def InitError.debugStr : InitError → String
  | .loggerAlreadyInitialized => "SetLoggerError(())"

/-- The diagnostic produced by `.expect("Failed to initialize logger")` when
initialization fails with error `e`. -/
def expectPanicMsg (e : InitError) : String :=
  "Failed to initialize logger: " ++ e.debugStr

/-- `msg` contains `phrase` as a contiguous substring. -/
def containsLit (msg phrase : String) : Prop :=
  ∃ p q, msg = p ++ phrase ++ q

/-- The outcome of one run of the program: exit status, the trace of
effectful operations performed, and the final process state. -/
structure RunResult where
  exit : ExitStatus
  trace : List Event
  final : ProcState
deriving DecidableEq, Repr

/-- `fn main()` of `src/src/main.rs`: initialize the default-configured
`SimpleLogger`, panicking with the `expect` diagnostic on failure, then call
`log_a()` and `log_b()` in sequence, discarding their (unit) results. -/
def rustMain (s₀ : ProcState) : RunResult :=
  match SimpleLogger.init SimpleLogger.new s₀ with
  | .error e =>
    { exit := .panicked (expectPanicMsg e), trace := [.initSink], final := s₀ }
  | .ok s₁ =>
    { exit := .success
      trace := [.initSink, .callA, .callB]
      final := log_b (log_a s₁) }

/-- A process in which a sink (the default configuration) was already
installed before `main` runs. -/
def alreadyInitProc : ProcState :=
  { sink := some SimpleLogger.new, output := [] }

/-! ## Claim theorems -/

/-- C1: if logger initialization fails, neither reporting call executes (no
`callA` or `callB` event appears in the run's trace), the process terminates
with a non-zero exit code, and the diagnostic message contains the literal
phrase "Failed to initialize logger". -/
theorem init_failure_is_fatal (s₀ : ProcState) (e : InitError)
    (h : SimpleLogger.init SimpleLogger.new s₀ = .error e) :
    Event.callA ∉ (rustMain s₀).trace ∧
    Event.callB ∉ (rustMain s₀).trace ∧
    exitCode (rustMain s₀).exit ≠ 0 ∧
    ∃ msg, (rustMain s₀).exit = .panicked msg ∧
      containsLit msg "Failed to initialize logger" := by
  have htr : rustMain s₀ =
      { exit := .panicked (expectPanicMsg e), trace := [.initSink],
        final := s₀ } := by
    unfold rustMain
    rw [h]
  rw [htr]
  refine ⟨by simp, by simp, by simp [exitCode], expectPanicMsg e, rfl, ?_⟩
  cases e
  exact ⟨"", ": SetLoggerError(())", rfl⟩

/-- Witness for C1 at a process that already has a sink installed. -/
theorem init_failure_is_fatal_witness :
    SimpleLogger.init SimpleLogger.new alreadyInitProc =
      .error .loggerAlreadyInitialized ∧
    (Event.callA ∉ (rustMain alreadyInitProc).trace ∧
     Event.callB ∉ (rustMain alreadyInitProc).trace ∧
     exitCode (rustMain alreadyInitProc).exit ≠ 0 ∧
     ∃ msg, (rustMain alreadyInitProc).exit = .panicked msg ∧
       containsLit msg "Failed to initialize logger") :=
  ⟨rfl, init_failure_is_fatal alreadyInitProc .loggerAlreadyInitialized rfl⟩

/-- C2: whenever both reporting calls run, the trace is exactly
initialization, then the call to `log_a`, then the call to `log_b`, and the
record "A" emitted by A precedes the record "B" emitted by B in the captured
output stream. -/
theorem call_a_before_call_b (s₀ : ProcState)
    (hA : Event.callA ∈ (rustMain s₀).trace)
    (hB : Event.callB ∈ (rustMain s₀).trace) :
    (rustMain s₀).trace = [.initSink, .callA, .callB] ∧
    (rustMain s₀).final.output = s₀.output ++ ["A", "B"] := by
  match hs : s₀.sink with
  | some cfg =>
    exfalso
    have htr : rustMain s₀ =
        { exit := .panicked (expectPanicMsg .loggerAlreadyInitialized),
          trace := [.initSink], final := s₀ } := by
      unfold rustMain SimpleLogger.init
      rw [hs]
    rw [htr] at hA
    simp at hA
  | none =>
    have htr : rustMain s₀ =
        { exit := .success, trace := [.initSink, .callA, .callB],
          final := log_b (log_a { s₀ with sink := some SimpleLogger.new }) } := by
      unfold rustMain SimpleLogger.init
      rw [hs]
    rw [htr]
    exact ⟨rfl, by simp [log_a, log_b, a.log, b.log]⟩

/-- Witness for C2 at the fresh process. -/
theorem call_a_before_call_b_witness :
    Event.callA ∈ (rustMain freshProcess).trace ∧
    Event.callB ∈ (rustMain freshProcess).trace ∧
    ((rustMain freshProcess).trace = [.initSink, .callA, .callB] ∧
     (rustMain freshProcess).final.output = freshProcess.output ++ ["A", "B"]) :=
  ⟨by decide, by decide,
   call_a_before_call_b freshProcess (by decide) (by decide)⟩

/-- C3: after any successful initialization, a second initialization attempt
in the same process fails with the `LoggerAlreadyInitialized` error kind —
so at most one initialization attempt can succeed per process. -/
theorem double_init_fails (s₀ s₁ : ProcState) (cfg cfg₂ : SimpleLogger)
    (h : SimpleLogger.init cfg s₀ = .ok s₁) :
    SimpleLogger.init cfg₂ s₁ = .error .loggerAlreadyInitialized := by
  match hs : s₀.sink with
  | some c =>
    unfold SimpleLogger.init at h
    rw [hs] at h
    exact absurd h (by simp)
  | none =>
    unfold SimpleLogger.init at h
    rw [hs] at h
    have hs₁ : s₁ = { s₀ with sink := some cfg } := by
      cases h
      rfl
    rw [hs₁]
    unfold SimpleLogger.init
    rfl

/-- Witness for C3: initializing the fresh process succeeds, and the second
attempt fails with `LoggerAlreadyInitialized`. -/
theorem double_init_fails_witness :
    SimpleLogger.init SimpleLogger.new freshProcess = .ok alreadyInitProc ∧
    SimpleLogger.init SimpleLogger.new alreadyInitProc =
      .error .loggerAlreadyInitialized :=
  ⟨rfl, double_init_fails freshProcess alreadyInitProc
    SimpleLogger.new SimpleLogger.new rfl⟩

/-- C4: on the success path from a fresh process, the run performs exactly
the sequence initialize sink, call A, call B; the process exits with the
success (zero) status; and the captured output contains "A" strictly before
"B". -/
theorem fresh_run_success_path :
    (rustMain freshProcess).trace = [.initSink, .callA, .callB] ∧
    (rustMain freshProcess).exit = .success ∧
    exitCode (rustMain freshProcess).exit = 0 ∧
    (rustMain freshProcess).final.output = ["A", "B"] := by
  decide

/-- C5: in a fresh process (no sink previously installed), the single call
to the initialization step succeeds, and the fatal error branch is not
taken: the run does not panic. -/
theorem fresh_init_succeeds :
    SimpleLogger.init SimpleLogger.new freshProcess = .ok alreadyInitProc ∧
    (rustMain freshProcess).exit = .success :=
  ⟨rfl, rfl⟩

/-- C6: the initialization step is invoked on `SimpleLogger.new`, the
no-input default configuration — no minimum level filter, default
formatting — and a successful run installs exactly that configuration as
the process sink. -/
theorem init_uses_default_config :
    SimpleLogger.new.minLevelFilter = none ∧
    SimpleLogger.new.defaultFormatting = true ∧
    ∀ s₀ : ProcState, (rustMain s₀).exit = .success →
      (rustMain s₀).final.sink = some SimpleLogger.new := by
  refine ⟨rfl, rfl, ?_⟩
  intro s₀ hsucc
  match hs : s₀.sink with
  | some c =>
    exfalso
    have htr : rustMain s₀ =
        { exit := .panicked (expectPanicMsg .loggerAlreadyInitialized),
          trace := [.initSink], final := s₀ } := by
      unfold rustMain SimpleLogger.init
      rw [hs]
    rw [htr] at hsucc
    exact ExitStatus.noConfusion hsucc
  | none =>
    have htr : rustMain s₀ =
        { exit := .success, trace := [.initSink, .callA, .callB],
          final := log_b (log_a { s₀ with sink := some SimpleLogger.new }) } := by
      unfold rustMain SimpleLogger.init
      rw [hs]
    rw [htr]
    simp [log_a, log_b, a.log, b.log]

/-- Witness for C6 at the fresh process. -/
theorem init_uses_default_config_witness :
    (rustMain freshProcess).exit = .success ∧
    (rustMain freshProcess).final.sink = some SimpleLogger.new :=
  ⟨rfl, init_uses_default_config.2.2 freshProcess rfl⟩

/-- C7: neither reporting call mutates, reconfigures, or tears down the
sink — `log_a` and `log_b` leave the sink component of the state untouched —
and once initialization succeeds, the installed sink is still present,
unchanged, in the final state of the run. -/
theorem sink_unchanged_after_init :
    (∀ s : ProcState, (log_a s).sink = s.sink) ∧
    (∀ s : ProcState, (log_b s).sink = s.sink) ∧
    ∀ s₀ s₁ : ProcState, SimpleLogger.init SimpleLogger.new s₀ = .ok s₁ →
      (rustMain s₀).final.sink = s₁.sink := by
  refine ⟨fun s => rfl, fun s => rfl, ?_⟩
  intro s₀ s₁ h
  match hs : s₀.sink with
  | some c =>
    exfalso
    unfold SimpleLogger.init at h
    rw [hs] at h
    exact Except.noConfusion h
  | none =>
    unfold SimpleLogger.init at h
    rw [hs] at h
    have hs₁ : s₁ = { s₀ with sink := some SimpleLogger.new } := by
      cases h
      rfl
    have htr : rustMain s₀ =
        { exit := .success, trace := [.initSink, .callA, .callB],
          final := log_b (log_a { s₀ with sink := some SimpleLogger.new }) } := by
      unfold rustMain SimpleLogger.init
      rw [hs]
    rw [htr, hs₁]
    rfl

/-- Witness for C7 at the fresh process. -/
theorem sink_unchanged_after_init_witness :
    SimpleLogger.init SimpleLogger.new freshProcess = .ok alreadyInitProc ∧
    (rustMain freshProcess).final.sink = alreadyInitProc.sink :=
  ⟨rfl, sink_unchanged_after_init.2.2 freshProcess alreadyInitProc rfl⟩

/-- C8: in every run whose sink initialization succeeds, each reporting
function is invoked exactly once — the trace contains exactly one `callA`
event and exactly one `callB` event. -/
theorem each_report_called_once (s₀ s₁ : ProcState)
    (h : SimpleLogger.init SimpleLogger.new s₀ = .ok s₁) :
    ((rustMain s₀).trace.count Event.callA = 1) ∧
    ((rustMain s₀).trace.count Event.callB = 1) := by
  match hs : s₀.sink with
  | some c =>
    exfalso
    unfold SimpleLogger.init at h
    rw [hs] at h
    exact Except.noConfusion h
  | none =>
    have htr : rustMain s₀ =
        { exit := .success, trace := [.initSink, .callA, .callB],
          final := log_b (log_a { s₀ with sink := some SimpleLogger.new }) } := by
      unfold rustMain SimpleLogger.init
      rw [hs]
    rw [htr]
    exact ⟨rfl, rfl⟩

/-- Witness for C8 at the fresh process. -/
theorem each_report_called_once_witness :
    SimpleLogger.init SimpleLogger.new freshProcess = .ok alreadyInitProc ∧
    ((rustMain freshProcess).trace.count Event.callA = 1) ∧
    ((rustMain freshProcess).trace.count Event.callB = 1) :=
  ⟨rfl, each_report_called_once freshProcess alreadyInitProc rfl⟩

/-- C9: the program reads no input — `rustMain` depends on nothing but the
initial process state — so any two runs started in a fresh-sink state
perform the identical operation sequence initialize, call A, call B, and
exit with equal status codes. -/
theorem runs_are_deterministic (s₀ s₀₂ : ProcState)
    (h : s₀.sink = none) (h₂ : s₀₂.sink = none) :
    (rustMain s₀).trace = (rustMain s₀₂).trace ∧
    (rustMain s₀).trace = [.initSink, .callA, .callB] ∧
    exitCode (rustMain s₀).exit = exitCode (rustMain s₀₂).exit := by
  have htr : ∀ s : ProcState, s.sink = none →
      (rustMain s).trace = [.initSink, .callA, .callB] ∧
      (rustMain s).exit = .success := by
    intro s hsnone
    have hrw : rustMain s =
        { exit := .success, trace := [.initSink, .callA, .callB],
          final := log_b (log_a { s with sink := some SimpleLogger.new }) } := by
      unfold rustMain SimpleLogger.init
      rw [hsnone]
    rw [hrw]
    exact ⟨rfl, rfl⟩
  obtain ⟨ht1, he1⟩ := htr s₀ h
  obtain ⟨ht2, he2⟩ := htr s₀₂ h₂
  rw [ht1, ht2, he1, he2]
  exact ⟨rfl, rfl, rfl⟩

/-- Witness for C9: two fresh-sink processes with different prior output
still perform the identical operation sequence. -/
theorem runs_are_deterministic_witness :
    freshProcess.sink = none ∧
    ProcState.sink { sink := none, output := ["X"] } = none ∧
    ((rustMain freshProcess).trace =
       (rustMain { sink := none, output := ["X"] }).trace ∧
     (rustMain freshProcess).trace = [.initSink, .callA, .callB] ∧
     exitCode (rustMain freshProcess).exit =
       exitCode (rustMain { sink := none, output := ["X"] }).exit) :=
  ⟨rfl, rfl,
   runs_are_deterministic freshProcess { sink := none, output := ["X"] } rfl rfl⟩

/-- C10: sink initialization is the first effect of every run — the trace
starts with the `initSink` event, no reporting call precedes it — and if
initialization does not complete successfully the program emits no log
record at all: the output stream is left exactly as it was. -/
theorem init_is_first_effect (s₀ : ProcState) :
    (∃ rest, (rustMain s₀).trace = Event.initSink :: rest ∧
      Event.initSink ∉ rest) ∧
    ((rustMain s₀).exit ≠ .success →
      (rustMain s₀).final.output = s₀.output) := by
  match hs : s₀.sink with
  | some c =>
    have htr : rustMain s₀ =
        { exit := .panicked (expectPanicMsg .loggerAlreadyInitialized),
          trace := [.initSink], final := s₀ } := by
      unfold rustMain SimpleLogger.init
      rw [hs]
    rw [htr]
    exact ⟨⟨[], rfl, by simp⟩, fun _ => rfl⟩
  | none =>
    have htr : rustMain s₀ =
        { exit := .success, trace := [.initSink, .callA, .callB],
          final := log_b (log_a { s₀ with sink := some SimpleLogger.new }) } := by
      unfold rustMain SimpleLogger.init
      rw [hs]
    rw [htr]
    refine ⟨⟨[.callA, .callB], rfl, by simp⟩, ?_⟩
    intro hne
    exact absurd rfl hne

/-- Witness for C10 at a process whose initialization fails: the output
stream is untouched. -/
theorem init_is_first_effect_witness :
    (∃ rest, (rustMain alreadyInitProc).trace = Event.initSink :: rest ∧
      Event.initSink ∉ rest) ∧
    (rustMain alreadyInitProc).final.output = alreadyInitProc.output :=
  ⟨(init_is_first_effect alreadyInitProc).1,
   (init_is_first_effect alreadyInitProc).2 (by decide)⟩
